import Mathlib

set_option maxRecDepth 20000

/-!
Verification development for the TravelGuide itinerary generator
(`Project Files/travel.py`).

The program collects trip parameters, composes one prompt string, makes one
synchronous call to an external text-generation client, and stores the result
(together with the destination label) in the per-session state, from which the
display and download steps read.

The embedding below translates the relevant Python functions into Lean:

* `buildPrompt` embeds the f-string of `generate_itinerary` (travel.py lines
  78-97), with `pyStrNat` modelling Python's `str` on the `days`/`nights`
  integers and `interestsSlot` modelling the conditional interests line.
* `generate_itinerary` embeds the call/except structure of the Python function
  (lines 99-106): the external client is a function `Client` from the prompt to
  a `GenResult`; the list of prompts actually sent is returned alongside the
  result so that "no external call is made" is expressible.
* `initialize_gemini` embeds lines 37-59: the credential is resolved from the
  environment variable or the Streamlit secrets (Python `or` semantics via
  `pyOr`), and a missing credential yields `none` with the
  `InitOutcome.missingCredential` message.
* `mainAttempt` embeds the generation attempt of `main` (lines 162-173):
  the `if not destination` validation, the call, and the `if itinerary:`
  session update; `mainRun` adds the `model is None → st.stop()` guard
  (lines 116-119).
* `SessionState` models `st.session_state` restricted to the two keys the
  program uses; `sessionGet`/`displayStep` embed the display branch
  (lines 176-199) and `downloadFilename` the `file_name` argument (line 197).
-/

/-- The structured input parameters of one generation attempt (spec §3). -/
structure TripRequest where
  destination : String
  days : Nat
  nights : Nat
  interests : String
deriving DecidableEq

/-- Result of one call to the external text-generation client: the returned
text, or the message of the exception the call raised. -/
inductive GenResult where
  | ok (text : String)
  | err (msg : String)
deriving DecidableEq

/-- The external client as an opaque capability: maps the prompt sent to the
outcome of the call (`model.generate_content` in travel.py line 100). -/
def Client : Type := String → GenResult

/-- The character of a single decimal digit (0-9). -/
def digitChar (d : Nat) : Char := Char.ofNat (48 + d)

/-- Decimal digit characters of `n`, most significant first, in front of
`acc`; `fuel` bounds the recursion depth (any `fuel > n` is enough). Models
Python's `str` on a nonnegative `int`. -/
def natDigitsAux : Nat → Nat → List Char → List Char
  | 0, _, acc => acc
  | fuel + 1, n, acc =>
    if n < 10 then digitChar n :: acc
    else natDigitsAux fuel (n / 10) (digitChar (n % 10) :: acc)

/-- Python `str` on a nonnegative integer, as used by the f-string
interpolations `{days}` and `{nights}` in travel.py line 82. -/
def pyStrNat (n : Nat) : String := ⟨natDigitsAux (n + 1) n []⟩

/-- The conditional interests line of the prompt template, travel.py line 83:
`f"Interests/Preferences: {interests}" if interests else ""`. Python string
truthiness: the line is emitted exactly when `interests` is non-empty, with the
raw (untrimmed) interests text. -/
def interestsSlot (interests : String) : String :=
  if interests = "" then "" else "Interests/Preferences: " ++ interests

/-- Template text of travel.py lines 78-81 up to the destination
interpolation. -/
def promptPart1 : String :=
  "\n        Create a detailed and personalized travel itinerary for the following trip:\n        \n        Destination: "

/-- Template text between the destination and days interpolations
(travel.py lines 81-82). -/
def promptPart2 : String := "\n        Duration: "

/-- Template text between the days and nights interpolations
(travel.py line 82). -/
def promptPart3 : String := " days and "

/-- Template text between the nights interpolation and the interests slot
(travel.py lines 82-83). -/
def promptPart4 : String := " nights\n        "

/-- Template text after the interests slot (travel.py lines 83-97). -/
def promptPart5 : String :=
  "\n        \n        Please provide a comprehensive itinerary that includes:\n        \n        1. **Day-by-Day Schedule**: Break down activities for each day\n        2. **Local Attractions**: Must-visit places and hidden gems\n        3. **Dining Recommendations**: Local restaurants and cuisine to try\n        4. **Accommodation Suggestions**: Areas to stay in\n        5. **Transportation Tips**: Getting around the destination\n        6. **Budget Estimates**: Approximate costs for activities\n        7. **Travel Tips**: Important things to know (weather, customs, safety)\n        8. **Best Time to Visit**: Each attraction\n        \n        Make the itinerary engaging, practical, and well-structured. Include specific timings and realistic schedules.\n        "

/-- The prompt composed by `generate_itinerary` (travel.py lines 78-97): the
f-string with the four interpolations filled in. -/
def buildPrompt (destination : String) (days nights : Nat) (interests : String) : String :=
  promptPart1 ++ destination ++ promptPart2 ++ pyStrNat days ++ promptPart3 ++
    pyStrNat nights ++ promptPart4 ++ interestsSlot interests ++ promptPart5

/-- `generate_itinerary` (travel.py lines 62-106): composes the prompt, sends
it to the client, and returns `response.text` on success or `None` when the
call raises (the `except` branch shows the error and returns `None`). The
second component records every prompt sent to the external client. -/
def generate_itinerary (model : Client) (destination : String) (days nights : Nat)
    (interests : String) : Option String × List String :=
  let prompt := buildPrompt destination days nights interests
  match model prompt with
  | GenResult.ok t => (some t, [prompt])
  | GenResult.err _ => (none, [prompt])

/-- A generated itinerary together with its destination label (spec §3). -/
structure ItineraryResult where
  text : String
  destination : String
deriving DecidableEq

/-- `st.session_state` restricted to the two keys travel.py uses:
`'itinerary'` (lines 172, 176, 181, 190, 196) and `'destination'`
(lines 173, 177, 197). `none` models the key being absent. -/
structure SessionState where
  itinerary : Option String
  destination : Option String
deriving DecidableEq

/-- Session state at session start: neither key present. -/
def emptySession : SessionState := ⟨none, none⟩

/-- The read of the display branch (travel.py lines 176-177): guarded by
`'itinerary' in st.session_state`, it reads both keys; on every reachable
state the two keys are present together (proved below), so the read yields
an `ItineraryResult` exactly when the state is populated. -/
def sessionGet (s : SessionState) : Option ItineraryResult :=
  match s.itinerary, s.destination with
  | some t, some d => some ⟨t, d⟩
  | _, _ => none

/-- The display branch (travel.py lines 176-199) reads the session state and
renders it; it writes nothing, so the state after the step is the state
before it. -/
def displayStep (s : SessionState) : Option ItineraryResult × SessionState :=
  (sessionGet s, s)

/-- The `file_name` argument of the download button (travel.py line 197):
`f"{st.session_state['destination']}_itinerary.txt"`. -/
def downloadFilename (destination : String) : String :=
  destination ++ "_itinerary.txt"

/-- What the generation attempt branch of `main` surfaced to the user. -/
inductive Outcome where
  | validationError
  | stored (t : String)
  | notStored
deriving DecidableEq

/-- Result of one generation attempt: the session state afterwards, the
prompts sent to the external client during the attempt, and the outcome. -/
structure AttemptResult where
  session : SessionState
  calls : List String
  outcome : Outcome
deriving DecidableEq

/-- One generation attempt of `main` (travel.py lines 162-173): the
`if not destination` validation shows a warning and makes no call; otherwise
`generate_itinerary` is called and, under `if itinerary:` (Python truthiness:
not `None` and not the empty string), both session keys are set. -/
def mainAttempt (model : Client) (destination : String) (days nights : Nat)
    (interests : String) (s : SessionState) : AttemptResult :=
  if destination = "" then
    ⟨s, [], Outcome.validationError⟩
  else
    let r := generate_itinerary model destination days nights interests
    match r.1 with
    | some t =>
      if t = "" then ⟨s, r.2, Outcome.notStored⟩
      else ⟨⟨some t, some destination⟩, r.2, Outcome.stored t⟩
    | none => ⟨s, r.2, Outcome.notStored⟩

/-- The credential configuration visible to `initialize_gemini`:
`os.getenv("GEMINI_API_KEY")` (`none` when the variable is unset) and
`st.secrets.get("GEMINI_API_KEY", "")` (`none` when the secret is absent, in
which case the `.get` default `""` applies). -/
structure Config where
  envKey : Option String
  secretsKey : Option String

/-- Python `a or b` where `a` is `None` or a string: `b` when `a` is falsy
(`None` or `""`), else `a`. -/
def pyOr (a : Option String) (b : String) : String :=
  match a with
  | some str => if str = "" then b else str
  | none => b

/-- The API key computed at travel.py line 43:
`os.getenv("GEMINI_API_KEY") or st.secrets.get("GEMINI_API_KEY", "")`. -/
def resolvedApiKey (c : Config) : String :=
  pyOr c.envKey (c.secretsKey.getD "")

/-- The message `initialize_gemini` surfaced: success, the missing-key error
of travel.py line 46, or the `except` branch error of line 58. -/
inductive InitOutcome where
  | ok
  | missingCredential
  | providerInitError (msg : String)
deriving DecidableEq

/-- `initialize_gemini` (travel.py lines 37-59): resolves the API key; when
falsy, shows the missing-key error and returns `None` without touching the
provider; otherwise constructs the model (`mkModel` models
`genai.configure` + `GenerativeModel`, which may raise, caught at line 57). -/
def initialize_gemini (c : Config) (mkModel : String → Except String Client) :
    Option Client × InitOutcome :=
  if resolvedApiKey c = "" then (none, InitOutcome.missingCredential)
  else
    match mkModel (resolvedApiKey c) with
    | Except.ok m => (some m, InitOutcome.ok)
    | Except.error e => (none, InitOutcome.providerInitError e)

/-- The generation flow of `main` from startup (travel.py lines 116-173):
initialize the client; if `None`, `st.stop()` ends the run with no external
call and the session untouched; otherwise run the generation attempt.
Returns the session state afterwards and the prompts sent externally. -/
def mainRun (c : Config) (mkModel : String → Except String Client)
    (destination : String) (days nights : Nat) (interests : String)
    (s : SessionState) : SessionState × List String :=
  match (initialize_gemini c mkModel).1 with
  | none => (s, [])
  | some model =>
    let r := mainAttempt model destination days nights interests s
    (r.session, r.calls)

/-- Python `str.isspace` membership for the ASCII whitespace characters
`str.strip()` removes. -/
def pyIsSpace (c : Char) : Bool :=
  c = ' ' || c = '\t' || c = '\n' || c = '\x0d' || c = '\x0b' || c = '\x0c'

/-- Python `str.strip()` on the underlying character list: drop whitespace
from both ends. -/
def stripChars (l : List Char) : List Char :=
  ((l.dropWhile pyIsSpace).reverse.dropWhile pyIsSpace).reverse

/-- Python `str.strip()`. -/
def pyStrip (s : String) : String := ⟨stripChars s.data⟩

/-- Split a character list into the segments between occurrences of `c`
(the lines of a text, for `c = '\n'`). -/
def splitOnChar (c : Char) : List Char → List (List Char)
  | [] => [[]]
  | x :: xs =>
    if x = c then [] :: splitOnChar c xs
    else List.modifyHead (x :: ·) (splitOnChar c xs)

/-- The lines of a string. -/
def linesOf (s : String) : List (List Char) := splitOnChar '\n' s.data

/-- The marker that identifies the interests line of the prompt template. -/
def interestsMarker : List Char := "Interests/Preferences:".data

/-- A line of the composed prompt is interests-related when, after the
template indentation, it starts with the interests marker. -/
def isInterestsLine (l : List Char) : Bool :=
  interestsMarker.isPrefixOf (l.dropWhile pyIsSpace)

/-- Does `needle` occur as a contiguous substring of `hay`? -/
def listContains (needle : List Char) : List Char → Bool
  | [] => needle.isEmpty
  | x :: xs => needle.isPrefixOf (x :: xs) || listContains needle xs

/-- Does `needle` occur as a contiguous substring of `s`? -/
def strContains (needle s : String) : Bool := listContains needle.data s.data

/-- The session-state invariant of the claims: the itinerary text and the
destination label are present together or absent together. -/
def bothOrNeither (s : SessionState) : Prop :=
  s.itinerary.isSome = s.destination.isSome

instance (s : SessionState) : Decidable (bothOrNeither s) := by
  unfold bothOrNeither
  infer_instance

/-- The 8-space indentation of every line of the prompt template. -/
def sp8 : List Char := "        ".data

/-- Line 2 of the prompt template (travel.py line 79). -/
def lineCreate : List Char :=
  "        Create a detailed and personalized travel itinerary for the following trip:".data

/-- The fixed part of the destination line (travel.py line 81). -/
def destPre : List Char := "        Destination: ".data

/-- The fixed start of the duration line (travel.py line 82). -/
def durPre : List Char := "        Duration: ".data

/-- The fixed middle of the duration line (travel.py line 82). -/
def daysAnd : List Char := " days and ".data

/-- The fixed end of the duration line (travel.py line 82). -/
def nightsTail : List Char := " nights".data

/-- Template line, travel.py line 85. -/
def linePlease : List Char :=
  "        Please provide a comprehensive itinerary that includes:".data

/-- Template line, travel.py line 87. -/
def lineItem1 : List Char :=
  "        1. **Day-by-Day Schedule**: Break down activities for each day".data

/-- Template line, travel.py line 88. -/
def lineItem2 : List Char :=
  "        2. **Local Attractions**: Must-visit places and hidden gems".data

/-- Template line, travel.py line 89. -/
def lineItem3 : List Char :=
  "        3. **Dining Recommendations**: Local restaurants and cuisine to try".data

/-- Template line, travel.py line 90. -/
def lineItem4 : List Char :=
  "        4. **Accommodation Suggestions**: Areas to stay in".data

/-- Template line, travel.py line 91. -/
def lineItem5 : List Char :=
  "        5. **Transportation Tips**: Getting around the destination".data

/-- Template line, travel.py line 92. -/
def lineItem6 : List Char :=
  "        6. **Budget Estimates**: Approximate costs for activities".data

/-- Template line, travel.py line 93. -/
def lineItem7 : List Char :=
  "        7. **Travel Tips**: Important things to know (weather, customs, safety)".data

/-- Template line, travel.py line 94. -/
def lineItem8 : List Char :=
  "        8. **Best Time to Visit**: Each attraction".data

/-- Template line, travel.py line 96. -/
def lineMake : List Char :=
  "        Make the itinerary engaging, practical, and well-structured. Include specific timings and realistic schedules.".data

/-- The 20 lines of the composed prompt, as functions of the interpolated
pieces: destination `d`, the digit strings `N1`/`N2` of days and nights, and
the interests slot `S`. -/
def promptLinesList (d N1 N2 S : List Char) : List (List Char) :=
  [ [], lineCreate, sp8, destPre ++ d,
    durPre ++ N1 ++ daysAnd ++ N2 ++ nightsTail,
    sp8 ++ S, sp8, linePlease, sp8,
    lineItem1, lineItem2, lineItem3, lineItem4, lineItem5, lineItem6, lineItem7, lineItem8,
    sp8, lineMake, sp8 ]

/-- Interleave newline characters between the given lines. -/
def joinLines : List (List Char) → List Char
  | [] => []
  | [l] => l
  | l :: l' :: ls => l ++ '\n' :: joinLines (l' :: ls)

/-- Decomposition of the template part before the destination into its lines. -/
theorem promptPart1_data :
    promptPart1.data = '\n' :: (lineCreate ++ '\n' :: (sp8 ++ '\n' :: destPre)) := by decide

/-- Decomposition of the template part between destination and days. -/
theorem promptPart2_data : promptPart2.data = '\n' :: durPre := by decide

/-- The template part between days and nights. -/
theorem promptPart3_data : promptPart3.data = daysAnd := by decide

/-- Decomposition of the template part between nights and the interests
slot. -/
theorem promptPart4_data : promptPart4.data = nightsTail ++ '\n' :: sp8 := by decide

/-- Decomposition of the template part after the interests slot into its
lines. -/
theorem promptPart5_data :
    promptPart5.data = '\n' :: (sp8 ++ '\n' :: (linePlease ++ '\n' :: (sp8 ++ '\n' ::
      (lineItem1 ++ '\n' :: (lineItem2 ++ '\n' :: (lineItem3 ++ '\n' :: (lineItem4 ++ '\n' ::
      (lineItem5 ++ '\n' :: (lineItem6 ++ '\n' :: (lineItem7 ++ '\n' :: (lineItem8 ++ '\n' ::
      (sp8 ++ '\n' :: (lineMake ++ '\n' :: sp8))))))))))))) := by decide

/-- The composed prompt is the newline-join of its 20 lines. -/
theorem buildPrompt_data (dest : String) (days nights : Nat) (interests : String) :
    (buildPrompt dest days nights interests).data =
      joinLines (promptLinesList dest.data (pyStrNat days).data (pyStrNat nights).data
        (interestsSlot interests).data) := by
  simp only [buildPrompt, String.data_append, promptPart1_data, promptPart2_data,
    promptPart3_data, promptPart4_data, promptPart5_data, promptLinesList, joinLines,
    List.append_assoc, List.cons_append, List.nil_append, List.append_nil]

/-- Splitting a list that avoids the separator yields the one-segment list. -/
theorem splitOnChar_not_mem {c : Char} : ∀ {l : List Char}, c ∉ l → splitOnChar c l = [l]
  | [], _ => rfl
  | x :: xs, h => by
    have hx : ¬ x = c := fun hxc => h (by simp [hxc])
    have hxs : c ∉ xs := fun hm => h (List.mem_cons_of_mem _ hm)
    simp [splitOnChar, hx, splitOnChar_not_mem hxs, List.modifyHead]

/-- A separator-free prefix lands entirely in the first segment of the
split. -/
theorem splitOnChar_append_not_mem {c : Char} :
    ∀ {a : List Char} (b : List Char), c ∉ a →
      splitOnChar c (a ++ b) = List.modifyHead (a ++ ·) (splitOnChar c b)
  | [], b, _ => by
    simp only [List.nil_append]
    cases splitOnChar c b <;> simp [List.modifyHead]
  | x :: a', b, h => by
    have hx : ¬ x = c := fun hxc => h (by simp [hxc])
    have ha' : c ∉ a' := fun hm => h (List.mem_cons_of_mem _ hm)
    rw [List.cons_append, splitOnChar, if_neg hx, splitOnChar_append_not_mem b ha',
      List.modifyHead_modifyHead]
    rcases hb : splitOnChar c b with _ | ⟨hd, tl⟩ <;> simp [List.modifyHead]

/-- A leading separator contributes an empty first segment. -/
theorem splitOnChar_cons_self (c : Char) (b : List Char) :
    splitOnChar c (c :: b) = [] :: splitOnChar c b := by
  simp [splitOnChar]

/-- Splitting the newline-join of newline-free lines recovers the lines. -/
theorem splitOnChar_joinLines :
    ∀ (ls : List (List Char)), ls ≠ [] → (∀ l ∈ ls, '\n' ∉ l) →
      splitOnChar '\n' (joinLines ls) = ls
  | [], h, _ => absurd rfl h
  | [l], _, hmem => by
    rw [joinLines]
    exact splitOnChar_not_mem (hmem l (by simp))
  | l :: l' :: ls, _, hmem => by
    have ih := splitOnChar_joinLines (l' :: ls) (by simp)
      (fun x hx => hmem x (List.mem_cons_of_mem _ hx))
    rw [joinLines, splitOnChar_append_not_mem _ (hmem l (by simp)),
      splitOnChar_cons_self, ih, List.modifyHead]
    simp

/-- Every character `natDigitsAux` produces is from `acc` or a decimal
digit. -/
theorem natDigitsAux_mem :
    ∀ (fuel n : Nat) (acc : List Char) (c : Char), c ∈ natDigitsAux fuel n acc →
      c ∈ acc ∨ ∃ d, d < 10 ∧ c = digitChar d
  | 0, _, _, _, h => Or.inl h
  | fuel + 1, n, acc, c, h => by
    rw [natDigitsAux] at h
    by_cases hn : n < 10
    · rw [if_pos hn] at h
      rcases List.mem_cons.mp h with hc | hc
      · exact Or.inr ⟨n, hn, hc⟩
      · exact Or.inl hc
    · rw [if_neg hn] at h
      rcases natDigitsAux_mem fuel (n / 10) _ c h with hc | hc
      · rcases List.mem_cons.mp hc with hc' | hc'
        · exact Or.inr ⟨n % 10, Nat.mod_lt _ (by omega), hc'⟩
        · exact Or.inl hc'
      · exact Or.inr hc

/-- Decimal digit characters are not newlines. -/
theorem digitChar_ne_newline {d : Nat} (h : d < 10) : digitChar d ≠ '\n' := by
  interval_cases d <;> decide

/-- The decimal rendering of a number contains no newline. -/
theorem newline_not_mem_pyStrNat (n : Nat) : '\n' ∉ (pyStrNat n).data := by
  intro h
  rcases natDigitsAux_mem (n + 1) n [] '\n' h with hc | ⟨d, hd, hc⟩
  · simp at hc
  · exact digitChar_ne_newline hd hc.symm

/-- The interests slot contains no newline when the interests text does
not. -/
theorem newline_not_mem_interestsSlot (interests : String)
    (hi : '\n' ∉ interests.data) : '\n' ∉ (interestsSlot interests).data := by
  unfold interestsSlot
  by_cases h : interests = ""
  · simp [h]
  · rw [if_neg h, String.data_append]
    intro hm
    rcases List.mem_append.mp hm with hm | hm
    · exact absurd hm (by decide)
    · exact hi hm

/-- Stripping whitespace from both ends yields a contiguous substring. -/
theorem stripChars_isInfix (l : List Char) : stripChars l <:+: l := by
  unfold stripChars
  have h1 : List.dropWhile pyIsSpace l <:+ l := List.dropWhile_suffix _
  have h2 : List.dropWhile pyIsSpace (List.dropWhile pyIsSpace l).reverse <:+
      (List.dropWhile pyIsSpace l).reverse := List.dropWhile_suffix _
  have h3 : (List.dropWhile pyIsSpace (List.dropWhile pyIsSpace l).reverse).reverse <+:
      List.dropWhile pyIsSpace l := by
    rw [← List.reverse_suffix]
    simpa using h2
  exact h3.isInfix.trans h1.isInfix

/-- For newline-free destination and interests, the lines of the composed
prompt are exactly the 20 template lines with the pieces filled in. -/
theorem linesOf_buildPrompt (dest : String) (days nights : Nat) (interests : String)
    (hd : '\n' ∉ dest.data) (hi : '\n' ∉ interests.data) :
    linesOf (buildPrompt dest days nights interests) =
      promptLinesList dest.data (pyStrNat days).data (pyStrNat nights).data
        (interestsSlot interests).data := by
  rw [linesOf, buildPrompt_data]
  refine splitOnChar_joinLines _ (by simp [promptLinesList]) ?_
  intro l hl
  have hN1 := newline_not_mem_pyStrNat days
  have hN2 := newline_not_mem_pyStrNat nights
  have hS := newline_not_mem_interestsSlot interests hi
  simp only [promptLinesList, List.mem_cons, List.not_mem_nil, or_false] at hl
  rcases hl with rfl | rfl | rfl | rfl | rfl | rfl | rfl | rfl | rfl | rfl | rfl | rfl | rfl |
    rfl | rfl | rfl | rfl | rfl | rfl | rfl
  · simp
  · decide
  · decide
  · simp only [List.mem_append]
    rintro (h | h)
    · exact absurd h (by decide)
    · exact hd h
  · intro hm
    rcases List.mem_append.mp hm with hm | hm
    · rcases List.mem_append.mp hm with hm | hm
      · rcases List.mem_append.mp hm with hm | hm
        · rcases List.mem_append.mp hm with hm | hm
          · exact absurd hm (by decide)
          · exact hN1 hm
        · exact absurd hm (by decide)
      · exact hN2 hm
    · exact absurd hm (by decide)
  · simp only [List.mem_append]
    rintro (h | h)
    · exact absurd h (by decide)
    · exact hS h
  · decide
  · decide
  · decide
  · decide
  · decide
  · decide
  · decide
  · decide
  · decide
  · decide
  · decide
  · decide
  · decide
  · decide

/-- Unfolding `generate_itinerary` when the client call succeeds. -/
theorem generate_itinerary_of_ok (model : Client) (dest : String) (days nights : Nat)
    (interests : String) (T : String)
    (h : model (buildPrompt dest days nights interests) = GenResult.ok T) :
    generate_itinerary model dest days nights interests =
      (some T, [buildPrompt dest days nights interests]) := by
  simp only [generate_itinerary, h]

/-- Unfolding `generate_itinerary` when the client call raises. -/
theorem generate_itinerary_of_err (model : Client) (dest : String) (days nights : Nat)
    (interests : String) (msg : String)
    (h : model (buildPrompt dest days nights interests) = GenResult.err msg) :
    generate_itinerary model dest days nights interests =
      (none, [buildPrompt dest days nights interests]) := by
  simp only [generate_itinerary, h]

/-- For a non-empty destination the attempt always makes exactly one external
call and never reports a validation error. -/
theorem mainAttempt_of_ne_empty (model : Client) (dest : String) (days nights : Nat)
    (interests : String) (s : SessionState) (hd : dest ≠ "") :
    (mainAttempt model dest days nights interests s).calls =
      [buildPrompt dest days nights interests] ∧
    (mainAttempt model dest days nights interests s).outcome ≠ Outcome.validationError := by
  unfold mainAttempt
  rw [if_neg hd]
  rcases hm : model (buildPrompt dest days nights interests) with T | msg
  · rw [generate_itinerary_of_ok model dest days nights interests T hm]
    by_cases hT : T = "" <;> simp [hT]
  · rw [generate_itinerary_of_err model dest days nights interests msg hm]
    simp

/-- A generation attempt from a state satisfying the invariant ends in a
state satisfying it. -/
theorem bothOrNeither_mainAttempt (model : Client) (dest : String) (days nights : Nat)
    (interests : String) (s : SessionState) (h : bothOrNeither s) :
    bothOrNeither (mainAttempt model dest days nights interests s).session := by
  unfold mainAttempt
  by_cases hd : dest = ""
  · rw [if_pos hd]
    exact h
  · rw [if_neg hd]
    rcases hm : model (buildPrompt dest days nights interests) with T | msg
    · rw [generate_itinerary_of_ok model dest days nights interests T hm]
      by_cases hT : T = ""
      · simp [hT]
        exact h
      · simp [hT]
        rfl
    · rw [generate_itinerary_of_err model dest days nights interests msg hm]
      exact h

/-- Claim C1, counterexample: for the whitespace-only destination `" "` —
which becomes empty after trimming — the attempt does make an external call
and does not report a validation error, because the code only tests
`if not destination` (travel.py line 163), which does not trim. -/
theorem c1_counterexample :
    pyStrip " " = "" ∧
    (mainAttempt (fun _ => GenResult.ok "X") " " 5 4 "" emptySession).calls ≠ [] ∧
    (mainAttempt (fun _ => GenResult.ok "X") " " 5 4 "" emptySession).outcome ≠
      Outcome.validationError :=
  ⟨by decide, by decide, by decide⟩

/-- Claim C1, amended: the flow returns a ValidationError with no external
call exactly when the destination is the empty string; for every non-empty
destination (whitespace-only included) exactly one external call is made and
the outcome is not a validation error. -/
theorem c1_empty_destination_validation (model : Client) (dest : String)
    (days nights : Nat) (interests : String) (s : SessionState) :
    ((mainAttempt model dest days nights interests s).outcome = Outcome.validationError ↔
      dest = "") ∧
    (dest = "" →
      (mainAttempt model dest days nights interests s).calls = [] ∧
      (mainAttempt model dest days nights interests s).session = s) ∧
    (dest ≠ "" →
      (mainAttempt model dest days nights interests s).calls =
        [buildPrompt dest days nights interests]) := by
  by_cases hd : dest = ""
  · subst hd
    exact ⟨⟨fun _ => rfl, fun _ => rfl⟩, fun _ => ⟨rfl, rfl⟩, fun h => absurd rfl h⟩
  · refine ⟨⟨?_, fun h => absurd h hd⟩, fun h => absurd h hd, fun _ =>
      (mainAttempt_of_ne_empty model dest days nights interests s hd).1⟩
    intro hout
    exact absurd hout (mainAttempt_of_ne_empty model dest days nights interests s hd).2

/-- Claim C1, witness of the amended theorem at concrete inputs: the empty
destination yields a validation error and no call; the destination `"Paris"`
yields exactly one call carrying the composed prompt. -/
theorem c1_witness :
    ((mainAttempt (fun _ => GenResult.ok "X") "" 5 4 "" emptySession).outcome =
      Outcome.validationError ↔ ("" : String) = "") ∧
    (mainAttempt (fun _ => GenResult.ok "X") "Paris" 5 4 "" emptySession).calls =
      [buildPrompt "Paris" 5 4 ""] :=
  ⟨(c1_empty_destination_validation (fun _ => GenResult.ok "X") "" 5 4 "" emptySession).1,
   (c1_empty_destination_validation (fun _ => GenResult.ok "X") "Paris" 5 4 ""
      emptySession).2.2 (by decide)⟩

/-- Claim C2, counterexample: for the whitespace-only interests `" "` the
composed prompt contains one interests-related line, although `" "` trims to
the empty string — the code tests `if interests` (travel.py line 83), raw
non-emptiness, not trimmed non-emptiness. -/
theorem c2_counterexample :
    pyStrip " " = "" ∧
    List.countP isInterestsLine (linesOf (buildPrompt "Paris" 5 4 " ")) = 1 :=
  ⟨by decide, by decide⟩

/-- Claim C2, amended: for a newline-free destination and interests, the
composed prompt contains no interests-related line when `interests` is the
empty string, and exactly one interests-related line when `interests` is
non-empty (whitespace-only included); that line is the template indentation
followed by `Interests/Preferences: ` and the raw interests text, and it
contains the trimmed interests text as a contiguous substring. -/
theorem c2_interests_line (dest : String) (days nights : Nat) (interests : String)
    (hd : '\n' ∉ dest.data) (hi : '\n' ∉ interests.data) :
    (List.filter isInterestsLine (linesOf (buildPrompt dest days nights interests)) =
      if interests = "" then []
      else ["        Interests/Preferences: ".data ++ interests.data]) ∧
    (interests ≠ "" →
      stripChars interests.data <:+:
        "        Interests/Preferences: ".data ++ interests.data) := by
  constructor
  · rw [linesOf_buildPrompt dest days nights interests hd hi]
    by_cases h : interests = ""
    · rw [if_pos h, h]
      rfl
    · rw [if_neg h]
      have hs : interestsSlot interests = "Interests/Preferences: " ++ interests := by
        rw [interestsSlot, if_neg h]
      rw [hs, String.data_append]
      rfl
  · intro _
    exact (stripChars_isInfix interests.data).trans (List.suffix_append _ _).isInfix

/-- Claim C2, witness of the amended theorem at concrete inputs: the prompt
for interests `"history"` has exactly the one expected interests line. -/
theorem c2_witness :
    List.filter isInterestsLine (linesOf (buildPrompt "Paris" 5 4 "history")) =
      ["        Interests/Preferences: history".data] ∧
    stripChars "history".data <:+:
      "        Interests/Preferences: ".data ++ "history".data := by
  have h := c2_interests_line "Paris" 5 4 "history" (by decide) (by decide)
  refine ⟨?_, h.2 (by decide)⟩
  have h1 := h.1
  rw [if_neg (by decide : ¬ ("history" : String) = "")] at h1
  exact h1.trans (by decide)

/-- Claim C3: when the external call raises, the session state after the
attempt is exactly the state before it — the `except` branch of
`generate_itinerary` returns `None` (travel.py lines 104-106) and
`if itinerary:` then skips the update (lines 170-173), from any prior state
including the absent one. -/
theorem c3_failed_call_preserves_session (model : Client) (dest : String)
    (days nights : Nat) (interests : String) (s : SessionState) (msg : String)
    (h : model (buildPrompt dest days nights interests) = GenResult.err msg) :
    (mainAttempt model dest days nights interests s).session = s := by
  unfold mainAttempt
  by_cases hd : dest = ""
  · rw [if_pos hd]
  · rw [if_neg hd, generate_itinerary_of_err model dest days nights interests msg h]

/-- Claim C3, witness: a failing client leaves a populated session exactly as
it was. -/
theorem c3_witness :
    (mainAttempt (fun _ => GenResult.err "boom") "Paris" 5 4 ""
      ⟨some "old", some "Rome"⟩).session = ⟨some "old", some "Rome"⟩ :=
  c3_failed_call_preserves_session (fun _ => GenResult.err "boom") "Paris" 5 4 ""
    ⟨some "old", some "Rome"⟩ "boom" rfl

/-- Claim C4: with the credential absent from both the environment and the
secrets store, `initialize_gemini` returns the missing-credential indication
(travel.py lines 45-48) rather than a model, and the flow stops
(lines 116-119) with no external call and the session untouched. -/
theorem c4_missing_credential_no_call (mkModel : String → Except String Client)
    (dest : String) (days nights : Nat) (interests : String) (s : SessionState)
    (c : Config) (henv : c.envKey = none) (hsec : c.secretsKey = none) :
    (initialize_gemini c mkModel).2 = InitOutcome.missingCredential ∧
    (initialize_gemini c mkModel).1 = none ∧
    mainRun c mkModel dest days nights interests s = (s, []) := by
  have hk : resolvedApiKey c = "" := by
    rw [resolvedApiKey, henv, hsec]
    rfl
  refine ⟨?_, ?_, ?_⟩ <;> simp [initialize_gemini, mainRun, hk]

/-- Claim C4, witness at a concrete configuration with no credential. -/
theorem c4_witness :
    (initialize_gemini ⟨none, none⟩ (fun k => Except.ok (fun _ => GenResult.ok k))).2 =
      InitOutcome.missingCredential ∧
    (initialize_gemini ⟨none, none⟩ (fun k => Except.ok (fun _ => GenResult.ok k))).1 =
      none ∧
    mainRun ⟨none, none⟩ (fun k => Except.ok (fun _ => GenResult.ok k)) "Paris" 5 4 ""
      emptySession = (emptySession, []) :=
  c4_missing_credential_no_call (fun k => Except.ok (fun _ => GenResult.ok k)) "Paris" 5 4 ""
    emptySession ⟨none, none⟩ rfl rfl

/-- Claim C5, counterexample: a successful external call that returns the
empty string does not populate the session — `if itinerary:` is false for
`""` — so the subsequent read does not return a result with text `""`. -/
theorem c5_counterexample :
    (fun _ => GenResult.ok "" : Client) (buildPrompt "Paris" 5 4 "") = GenResult.ok "" ∧
    sessionGet (mainAttempt (fun _ => GenResult.ok "") "Paris" 5 4 ""
      emptySession).session ≠ some ⟨"", "Paris"⟩ :=
  ⟨rfl, by decide⟩

/-- Claim C5, amended: for every successful external call returning non-empty
text `T` for a request with non-empty destination `D`, the session afterwards
stores exactly `T` and `D`, and the session read returns them verbatim. -/
theorem c5_success_updates_session (model : Client) (dest : String) (days nights : Nat)
    (interests : String) (s : SessionState) (T : String)
    (hdest : dest ≠ "") (hT : T ≠ "")
    (h : model (buildPrompt dest days nights interests) = GenResult.ok T) :
    (mainAttempt model dest days nights interests s).session = ⟨some T, some dest⟩ ∧
    sessionGet (mainAttempt model dest days nights interests s).session =
      some ⟨T, dest⟩ := by
  unfold mainAttempt
  rw [if_neg hdest, generate_itinerary_of_ok model dest days nights interests T h]
  simp [hT, sessionGet]

/-- Claim C5, witness at concrete inputs: a stubbed client returning
`"Day 1"` for destination `"Paris"` populates the session with exactly that
pair. -/
theorem c5_witness :
    (mainAttempt (fun _ => GenResult.ok "Day 1") "Paris" 5 4 "" emptySession).session =
      ⟨some "Day 1", some "Paris"⟩ ∧
    sessionGet (mainAttempt (fun _ => GenResult.ok "Day 1") "Paris" 5 4 ""
      emptySession).session = some ⟨"Day 1", "Paris"⟩ :=
  c5_success_updates_session (fun _ => GenResult.ok "Day 1") "Paris" 5 4 "" emptySession
    "Day 1" (by decide) (by decide) rfl

/-- Claim C6: the example scenario. The prompt composed for
`TripRequest{destination="Paris, France", days=5, nights=4,
interests="history, food"}` contains the literal substrings
`"Paris, France"`, `"5 days and 4 nights"` and `"history, food"`; after the
stubbed client returns `"Day 1: ..."`, the session read returns exactly that
text with destination label `"Paris, France"`, and the download filename is
`"Paris, France_itinerary.txt"`. -/
theorem c6_example_scenario :
    strContains "Paris, France" (buildPrompt "Paris, France" 5 4 "history, food") = true ∧
    strContains "5 days and 4 nights"
      (buildPrompt "Paris, France" 5 4 "history, food") = true ∧
    strContains "history, food" (buildPrompt "Paris, France" 5 4 "history, food") = true ∧
    sessionGet (mainAttempt (fun _ => GenResult.ok "Day 1: ...") "Paris, France" 5 4
      "history, food" emptySession).session = some ⟨"Day 1: ...", "Paris, France"⟩ ∧
    downloadFilename "Paris, France" = "Paris, France_itinerary.txt" :=
  ⟨by decide, by decide, by decide, by decide, by decide⟩

/-- Claim C7: prompt composition is a pure total function of the
`TripRequest` fields — two composition runs on requests with equal
destination, days, nights and interests produce the identical prompt
string. -/
theorem c7_prompt_deterministic (r r' : TripRequest)
    (h1 : r.destination = r'.destination) (h2 : r.days = r'.days)
    (h3 : r.nights = r'.nights) (h4 : r.interests = r'.interests) :
    buildPrompt r.destination r.days r.nights r.interests =
      buildPrompt r'.destination r'.days r'.nights r'.interests := by
  rw [h1, h2, h3, h4]

/-- Claim C7, witness at two equal concrete requests. -/
theorem c7_witness :
    buildPrompt "Rome" 3 2 "art" = buildPrompt "Rome" 3 2 "art" :=
  c7_prompt_deterministic ⟨"Rome", 3, 2, "art"⟩ ⟨"Rome", 3, 2, "art"⟩ rfl rfl rfl rfl

/-- Claim C8: the display read is idempotent — reading the stored result does
not modify the session, so two consecutive reads with no intervening write
return equal values. -/
theorem c8_get_idempotent (s : SessionState) :
    (displayStep s).1 = (displayStep (displayStep s).2).1 ∧ (displayStep s).2 = s :=
  ⟨rfl, rfl⟩

/-- Claim C9: a successful external call returning the empty string does not
update the session (the prior state, absent included, is retained exactly as
on a failed call), and consequently a session whose stored text is not the
empty string never comes to store the empty string. -/
theorem c9_empty_text_preserves_session (model : Client) (dest : String)
    (days nights : Nat) (interests : String) (s : SessionState) :
    (model (buildPrompt dest days nights interests) = GenResult.ok "" →
      (mainAttempt model dest days nights interests s).session = s) ∧
    (s.itinerary ≠ some "" →
      (mainAttempt model dest days nights interests s).session.itinerary ≠ some "") := by
  constructor
  · intro h
    unfold mainAttempt
    by_cases hd : dest = ""
    · rw [if_pos hd]
    · rw [if_neg hd, generate_itinerary_of_ok model dest days nights interests "" h]
      rfl
  · intro hs
    unfold mainAttempt
    by_cases hd : dest = ""
    · rw [if_pos hd]
      exact hs
    · rw [if_neg hd]
      rcases hm : model (buildPrompt dest days nights interests) with T | msg
      · rw [generate_itinerary_of_ok model dest days nights interests T hm]
        by_cases hT : T = ""
        · simp [hT]
          exact hs
        · simp [hT]
      · rw [generate_itinerary_of_err model dest days nights interests msg hm]
        exact hs

/-- Claim C9, witness: a client returning the empty string leaves a populated
session unchanged, and its text in particular is still not empty. -/
theorem c9_witness :
    (mainAttempt (fun _ => GenResult.ok "") "Paris" 5 4 ""
      ⟨some "old", some "Rome"⟩).session = ⟨some "old", some "Rome"⟩ ∧
    (mainAttempt (fun _ => GenResult.ok "") "Paris" 5 4 ""
      ⟨some "old", some "Rome"⟩).session.itinerary ≠ some "" :=
  ⟨(c9_empty_text_preserves_session (fun _ => GenResult.ok "") "Paris" 5 4 ""
      ⟨some "old", some "Rome"⟩).1 rfl,
   (c9_empty_text_preserves_session (fun _ => GenResult.ok "") "Paris" 5 4 ""
      ⟨some "old", some "Rome"⟩).2 (by decide)⟩

/-- Claim C10: the itinerary text and the destination label are present
together or absent together — the invariant holds at session start, is
preserved by every generation attempt (the only writes, travel.py
lines 172-173, set both keys), by the full run including initialization, and
the display step does not change the state at all. -/
theorem c10_session_invariant (model : Client) (c : Config)
    (mkModel : String → Except String Client) (dest : String) (days nights : Nat)
    (interests : String) (s : SessionState) (h : bothOrNeither s) :
    bothOrNeither emptySession ∧
    bothOrNeither (mainAttempt model dest days nights interests s).session ∧
    bothOrNeither (mainRun c mkModel dest days nights interests s).1 ∧
    (displayStep s).2 = s := by
  refine ⟨by decide, bothOrNeither_mainAttempt model dest days nights interests s h, ?_, rfl⟩
  unfold mainRun
  rcases (initialize_gemini c mkModel).1 with _ | m
  · exact h
  · exact bothOrNeither_mainAttempt m dest days nights interests s h

/-- Claim C10, witness at a concrete populated session state. -/
theorem c10_witness :
    bothOrNeither emptySession ∧
    bothOrNeither (mainAttempt (fun _ => GenResult.ok "new") "Paris" 5 4 ""
      ⟨some "old", some "Rome"⟩).session ∧
    bothOrNeither (mainRun ⟨some "key", none⟩ (fun k => Except.ok (fun _ => GenResult.ok k))
      "Paris" 5 4 "" ⟨some "old", some "Rome"⟩).1 ∧
    (displayStep ⟨some "old", some "Rome"⟩).2 = ⟨some "old", some "Rome"⟩ :=
  c10_session_invariant (fun _ => GenResult.ok "new") ⟨some "key", none⟩
    (fun k => Except.ok (fun _ => GenResult.ok k)) "Paris" 5 4 ""
    ⟨some "old", some "Rome"⟩ (by decide)
